import Mathlib

/-!
Verification of the gfs-winter-weather repository.

The frontend sources (`metarStations.ts`, `useForecast.ts`, the service
worker) are embedded directly.  The backend subsystem (Run Cache, GFS
Fetcher, Window Detector, Tier Classifier, Forecast Assembler) is present
in the repository only as a README-level design, so its definitions below
are modelled from the spec, as indicated in their doc comments.
-/

namespace GfsWinter

/-- Modelled from the spec (§4.4 Tier Classifier): the three output tiers
of a classified forecast window. The backend implementation is not in the
repository sources. -/
inductive Tier where
  | possible
  | detailed
  | finalCall
deriving DecidableEq, Repr

/-- Modelled from the spec (§3 Data Model, §4.3): a Forecast Window derived
by the Detector. `startTime`/`endTime` are absolute hours, `hours` the
contiguous lead hours (relative to the newest run) that compose it,
`snowAmount` the depth estimate in tenths of an inch. -/
structure ForecastWindow where
  startTime : Int
  endTime : Int
  startLead : Nat
  hours : List Nat
  snowAmount : Nat
deriving DecidableEq, Repr

/-- Modelled from the spec (§4.4): tier boundaries by lead hours.
`lead > 72h` is possible, `24h ≤ lead ≤ 72h` is detailed, `lead < 24h`
is final call. -/
def classifyLead (lead : Int) : Tier :=
  if 72 < lead then Tier.possible
  else if 24 ≤ lead then Tier.detailed
  else Tier.finalCall

/-- Modelled from the spec (§4.4): lead hours of a window at evaluation
time `now` are window start minus now. -/
def windowLead (w : ForecastWindow) (now : Int) : Int :=
  w.startTime - now

/-- Modelled from the spec (§4.4): classify one window at time `now`; the
tier is chosen by its lead time at classification time, not stored on
the window. -/
def classifyWindow (w : ForecastWindow) (now : Int) : Tier :=
  classifyLead (windowLead w now)

/-- Modelled from the spec (§3, §4.2): one decoded grid sample for a
(run, lead hour, bounding box): 2 m temperature (tenths of °C) and
accumulated precipitation (hundredths of a unit). -/
structure LeadSample where
  temp : Int
  precip : Nat
deriving DecidableEq, Repr

/-- Modelled from the spec (§4.3, §6): the Detector's configurable
constants: freezing threshold, precipitation threshold, snow-to-liquid
conversion factor, and the index of the last lead hour. -/
structure DetectorConfig where
  freezingThreshold : Int
  precipThreshold : Nat
  snowFactor : Nat
  nLead : Nat
deriving Repr

/-- Modelled from the spec (§4.3): a run's grid viewed as a partial map
from lead hour to the decoded sample; `none` means the (run, lead) file
was missing or failed to decode. -/
def RunGrid : Type := Nat → Option LeadSample

/-- Modelled from the spec (§4.3): a lead hour is snow-indicated in one
run when temperature is at or below the freezing threshold and
precipitation accumulation is at or above the minimum threshold. -/
def snowIndicated (cfg : DetectorConfig) (s : LeadSample) : Bool :=
  decide (s.temp ≤ cfg.freezingThreshold) && decide (cfg.precipThreshold ≤ s.precip)

/-- Modelled from the spec (§4.3): how many of the given recent runs
indicate snow at lead hour `h`. -/
def agreementCount (cfg : DetectorConfig) (grids : List RunGrid) (h : Nat) : Nat :=
  (grids.filter (fun g =>
    match g h with
    | some s => snowIndicated cfg s
    | none => false)).length

/-- Modelled from the spec (§4.3): the minimum-run-agreement count; at
least 2 of the most recent runs must agree before anything is surfaced. -/
def minAgreement : Nat := 2

/-- Modelled from the spec (§4.3): a lead hour is surfaced only when at
least `minAgreement` recent runs agree that snow is indicated there. -/
def surfaced (cfg : DetectorConfig) (grids : List RunGrid) (h : Nat) : Bool :=
  decide (minAgreement ≤ agreementCount cfg grids h)

/-- Modelled from the spec (§8 example): the 6-hourly lead hours
0, 6, ..., 6*n considered for one request. -/
def leadHoursList (n : Nat) : List Nat :=
  (List.range (n + 1)).map (fun i => 6 * i)

/-- Modelled from the spec (§4.3): the ascending list of surfaced lead
hours. -/
def surfacedHours (cfg : DetectorConfig) (grids : List RunGrid) : List Nat :=
  (leadHoursList cfg.nLead).filter (surfaced cfg grids)

/-- Modelled from the spec (§4.3): group an ascending list of lead hours
into maximal contiguous groups (consecutive hours 6 apart). -/
def groupContig : List Nat → List (List Nat)
  | [] => []
  | h :: t =>
    match groupContig t with
    | [] => [[h]]
    | [] :: gs => [h] :: [] :: gs
    | (x :: g) :: gs =>
      if x = h + 6 then (h :: x :: g) :: gs else [h] :: (x :: g) :: gs

/-- Modelled from the spec (§4.3): the snow-amount estimate of a group of
lead hours: total qualifying precipitation of the most recent run over
the group, converted to a depth estimate via the configurable factor. -/
def snowEstimate (cfg : DetectorConfig) (grids : List RunGrid) (g : List Nat) : Nat :=
  cfg.snowFactor *
    (g.foldl (fun acc h =>
      acc + (match grids.head? with
             | some r => (match r h with
                          | some s => s.precip
                          | none => 0)
             | none => 0)) 0) / 10

/-- Modelled from the spec (§4.3): detect Forecast Windows: group
contiguous surfaced lead hours, start = first indicated hour, end = last
contiguous indicated hour, with absolute times anchored at the newest
run's initialization hour `init`. -/
def detectWindows (cfg : DetectorConfig) (grids : List RunGrid) (init : Int) :
    List ForecastWindow :=
  (groupContig (surfacedHours cfg grids)).filterMap (fun g =>
    match g, g.getLast? with
    | x :: _, some y =>
        some { startTime := init + (x : Int)
               endTime := init + (y : Int)
               startLead := x
               hours := g
               snowAmount := snowEstimate cfg grids g }
    | _, _ => none)

/-- Modelled from the spec (§4.1): the cache key (run timestamp, lead
hour, location box); the bounding box is represented by an identifier. -/
structure GridKey where
  runId : Nat
  leadHour : Nat
  bbox : Nat
deriving DecidableEq, Repr

/-- Modelled from the spec (§4.1): a cache entry stores the fetched value
with its recorded fetch time (minutes). -/
structure CacheEntry where
  value : LeadSample
  fetchedAt : Nat
deriving DecidableEq, Repr

/-- Modelled from the spec (§4.1): the in-memory Run Cache as an
association list from keys to entries. -/
def Cache : Type := List (GridKey × CacheEntry)

/-- Modelled from the spec (§4.1): look up the entry stored for a key. -/
def lookupEntry : Cache → GridKey → Option CacheEntry
  | [], _ => none
  | (k', e) :: t, k => if k' = k then some e else lookupEntry t k

/-- Modelled from the spec (§4.1): drop any entry stored for a key. -/
def eraseKey : Cache → GridKey → Cache
  | [], _ => []
  | (k', e) :: t, k => if k' = k then eraseKey t k else (k', e) :: eraseKey t k

/-- Modelled from the spec (§4.1): store an entry for a key, replacing any
previous entry for that key only (lazy replacement, no proactive purge of
other expired entries). -/
def insertEntry (c : Cache) (k : GridKey) (e : CacheEntry) : Cache :=
  (k, e) :: eraseKey c k

/-- Modelled from the spec (§4.1): result of `get_or_fetch`: the value (if
the fetch succeeded), the updated cache, and whether the Fetcher was
invoked. -/
structure FetchResult where
  value : Option LeadSample
  cache : Cache
  fetched : Bool

/-- Modelled from the spec (§4.1): `get_or_fetch(run_id, lead_hour, bbox)`.
Returns cached data if present and not expired (an entry is expired when
it is older than the TTL, in minutes); otherwise delegates to the Fetcher,
stores the result with the current time, and returns it. If the Fetcher
fails, no entry is populated and the old entry (if any) is left alone. -/
def getOrFetch (ttl : Nat) (f : GridKey → Option LeadSample) (c : Cache)
    (k : GridKey) (now : Nat) : FetchResult :=
  match lookupEntry c k with
  | some e =>
    if ttl < now - e.fetchedAt then
      match f k with
      | some v => ⟨some v, insertEntry c k ⟨v, now⟩, true⟩
      | none => ⟨none, c, true⟩
    else ⟨some e.value, c, false⟩
  | none =>
    match f k with
    | some v => ⟨some v, insertEntry c k ⟨v, now⟩, true⟩
    | none => ⟨none, c, true⟩

/-- Modelled from the spec (§3 Data Model): a cache is consistent with the
Fetcher when every stored entry holds exactly the value the Fetcher
decodes for that key (refetches reproduce the same decoded values). -/
def Consistent (f : GridKey → Option LeadSample) (c : Cache) : Prop :=
  ∀ k e, lookupEntry c k = some e → f k = some e.value

/-- Modelled from the spec (§2 control flow): the Assembler obtains every
grid by asking the Cache, and misses trigger the Fetcher: the effective
grid source for a request served against cache snapshot `c` at fetch time
`tFetch`. -/
def cachedFetcher (ttl : Nat) (f : GridKey → Option LeadSample) (c : Cache)
    (tFetch : Nat) : GridKey → Option LeadSample :=
  fun k => (getOrFetch ttl f c k tFetch).value

/-- Embedded from `src/frontend/src/useForecast.ts` (`PossibleItem`). -/
structure PossibleItem where
  message : String
  date_range : String
deriving DecidableEq, Repr

/-- Embedded from `src/frontend/src/useForecast.ts` (`DetailedItem`);
`snow_inches` is in tenths of an inch (integer model of the JSON number). -/
structure DetailedItem where
  start_time : String
  end_time : String
  duration_hours : Nat
  snow_inches : Nat
  category : String
  lead_hours : Nat
deriving DecidableEq, Repr

/-- Embedded from `src/frontend/src/useForecast.ts` (`FinalCallItem`). -/
structure FinalCallItem where
  message : String
  start_time : String
  end_time : String
  duration_hours : Nat
  snow_inches : Nat
  category : String
deriving DecidableEq, Repr

/-- Embedded from `src/frontend/src/useForecast.ts` (`ForecastResponse`);
`lat`/`lon` are coordinates scaled by 10^4 (integer model of the JSON
numbers). -/
structure ForecastResponse where
  possible : Option PossibleItem
  detailed : List DetailedItem
  finalCall : Option FinalCallItem
  last_updated : Option String
  runs_used : Nat
  lat : Option Int
  lon : Option Int
  message : Option String
deriving DecidableEq, Repr

/-- Modelled from the spec (§4.4): the category label derived from the
snow-amount estimate (implementation-chosen thresholds, tenths of an
inch). -/
def snowCategory (snow : Nat) : String :=
  if snow < 20 then "light" else if snow < 60 then "moderate" else "heavy"

/-- Modelled from the spec (§4.3): duration in hours of a window; each
6-hourly lead hour stands for one accumulation interval. -/
def windowDuration (w : ForecastWindow) : Nat :=
  (w.endTime - w.startTime).toNat + 6

/-- Modelled from the spec (§4.4): render an absolute hour timestamp. -/
def renderTime (t : Int) : String :=
  toString t

/-- Modelled from the spec (§4.4): the "possible" tier carries a message
and a coarse date range only, no numeric snow amount. -/
def toPossibleItem (w : ForecastWindow) : PossibleItem :=
  { message := "Winter weather is possible"
    date_range := renderTime w.startTime ++ " to " ++ renderTime w.endTime }

/-- Modelled from the spec (§4.4): the "detailed" tier carries exact
start/end, duration, snow amount and category. -/
def toDetailedItem (w : ForecastWindow) : DetailedItem :=
  { start_time := renderTime w.startTime
    end_time := renderTime w.endTime
    duration_hours := windowDuration w
    snow_inches := w.snowAmount
    category := snowCategory w.snowAmount
    lead_hours := w.startLead }

/-- Modelled from the spec (§4.4): the "final call" tier carries a
human-readable summary plus the numeric detail. -/
def toFinalCallItem (w : ForecastWindow) : FinalCallItem :=
  { message := "Final call: winter weather expected"
    start_time := renderTime w.startTime
    end_time := renderTime w.endTime
    duration_hours := windowDuration w
    snow_inches := w.snowAmount
    category := snowCategory w.snowAmount }

/-- Modelled from the spec (§4.4, §4.5): bucket the detected windows by
their tier at time `now` and assemble the Forecast Response: at most one
"possible" window, zero or more "detailed" windows, at most one
"final call" window, plus metadata; a human-readable message when no
windows qualify. -/
def buildResponse (wins : List ForecastWindow) (now : Int) (latestInit : Int)
    (runsUsed : Nat) (lat lon : Int) : ForecastResponse :=
  { possible :=
      ((wins.filter (fun w => classifyWindow w now = Tier.possible)).head?).map toPossibleItem
    detailed :=
      (wins.filter (fun w => classifyWindow w now = Tier.detailed)).map toDetailedItem
    finalCall :=
      ((wins.filter (fun w => classifyWindow w now = Tier.finalCall)).head?).map toFinalCallItem
    last_updated := some (renderTime latestInit)
    runs_used := runsUsed
    lat := some lat
    lon := some lon
    message := if wins.isEmpty then some "No winter weather indicated" else none }

/-- Modelled from the spec (§4.5): the message-only response returned when
fewer than 1 usable run exists, rather than failing the request. -/
def emptyResponse (lat lon : Int) : ForecastResponse :=
  { possible := none
    detailed := []
    finalCall := none
    last_updated := none
    runs_used := 0
    lat := some lat
    lon := some lon
    message := some "No GFS runs available yet. Try again later." }

/-- Modelled from the spec (§4.5): a run is complete enough when every one
of its lead-hour files is fetchable for the request's bounding box. -/
def runComplete (g : GridKey → Option LeadSample) (r : Nat) (bbox : Nat)
    (nLead : Nat) : Bool :=
  (leadHoursList nLead).all (fun h => (g ⟨r, h, bbox⟩).isSome)

/-- Modelled from the spec (§4.5): the Forecast Assembler over an
arbitrary grid source `g`: keep the last (up to 3) complete candidate
runs, newest first; with zero usable runs return the message-only
response, otherwise run the Detector anchored at the newest usable run
and the Classifier at time `now`. Run identifiers double as their
initialization hour. -/
def assembleFrom (cfg : DetectorConfig) (g : GridKey → Option LeadSample)
    (cands : List Nat) (bbox : Nat) (lat lon : Int) (now : Int) : ForecastResponse :=
  let usable := (cands.filter (fun r => runComplete g r bbox cfg.nLead)).take 3
  match usable with
  | [] => emptyResponse lat lon
  | latest :: rest =>
    let grids : List RunGrid :=
      (latest :: rest).map (fun r => fun h => g ⟨r, h, bbox⟩)
    let wins := detectWindows cfg grids (latest : Int)
    buildResponse wins now (latest : Int) (latest :: rest).length lat lon

/-- Modelled from the spec (§2, §4.5): a full request against a cache
snapshot `c`: every grid goes through `get_or_fetch` (TTL clock `tFetch`),
misses hitting the Fetcher `f`. -/
def assembleWithCache (cfg : DetectorConfig) (ttl : Nat)
    (f : GridKey → Option LeadSample) (c : Cache) (tFetch : Nat)
    (cands : List Nat) (bbox : Nat) (lat lon : Int) (now : Int) : ForecastResponse :=
  assembleFrom cfg (cachedFetcher ttl f c tFetch) cands bbox lat lon now

/-- Modelled from the spec (§7c): coordinate validity for the HTTP route:
latitude within ±90°, longitude within ±180°, scaled by 10^4. -/
def validCoord (lat lon : Int) : Bool :=
  decide (-900000 ≤ lat) && decide (lat ≤ 900000) &&
    decide (-1800000 ≤ lon) && decide (lon ≤ 1800000)

/-- Modelled from the spec (§6, §7): `GET /forecast`: out-of-range
coordinates are rejected immediately with a client error and no fetch is
attempted; otherwise the Assembler's response is returned with HTTP
success. -/
def handleForecast (cfg : DetectorConfig) (ttl : Nat)
    (f : GridKey → Option LeadSample) (c : Cache) (tFetch : Nat)
    (cands : List Nat) (bbox : Nat) (lat lon : Int) (now : Int) :
    Except String ForecastResponse :=
  if validCoord lat lon then
    Except.ok (assembleWithCache cfg ttl f c tFetch cands bbox lat lon now)
  else
    Except.error "invalid coordinates"

/-- A model of JSON values, used to state what a well-formed Forecast
Response looks like on the wire. -/
inductive Json where
  | null
  | bool (b : Bool)
  | num (n : Int)
  | str (s : String)
  | arr (xs : List Json)
  | obj (fields : List (String × Json))

/-- Look up a field of a JSON object; `none` when absent or not an
object. -/
def Json.field : Json → String → Option Json
  | Json.obj fields, k =>
    match fields.find? (fun p => p.1 = k) with
    | some p => some p.2
    | none => none
  | _, _ => none

/-- Serialize a `PossibleItem` as its JSON object. -/
def PossibleItem.toJson (p : PossibleItem) : Json :=
  Json.obj [("message", Json.str p.message), ("date_range", Json.str p.date_range)]

/-- Serialize a `DetailedItem` as its JSON object. -/
def DetailedItem.toJson (d : DetailedItem) : Json :=
  Json.obj [("start_time", Json.str d.start_time),
            ("end_time", Json.str d.end_time),
            ("duration_hours", Json.num d.duration_hours),
            ("snow_inches", Json.num d.snow_inches),
            ("category", Json.str d.category),
            ("lead_hours", Json.num d.lead_hours)]

/-- Serialize a `FinalCallItem` as its JSON object. -/
def FinalCallItem.toJson (fc : FinalCallItem) : Json :=
  Json.obj [("message", Json.str fc.message),
            ("start_time", Json.str fc.start_time),
            ("end_time", Json.str fc.end_time),
            ("duration_hours", Json.num fc.duration_hours),
            ("snow_inches", Json.num fc.snow_inches),
            ("category", Json.str fc.category)]

/-- Serialize an optional value, `null` when absent. -/
def optJson {α : Type} (f : α → Json) : Option α → Json
  | some a => f a
  | none => Json.null

/-- Serialize a `ForecastResponse` as the JSON object the frontend
receives; optional `lat`/`lon`/`message` fields are omitted when absent. -/
def ForecastResponse.toJson (r : ForecastResponse) : Json :=
  Json.obj
    ([("possible", optJson PossibleItem.toJson r.possible),
      ("detailed", Json.arr (r.detailed.map DetailedItem.toJson)),
      ("finalCall", optJson FinalCallItem.toJson r.finalCall),
      ("last_updated", optJson Json.str r.last_updated),
      ("runs_used", Json.num r.runs_used)]
      ++ (match r.lat with | some v => [("lat", Json.num v)] | none => [])
      ++ (match r.lon with | some v => [("lon", Json.num v)] | none => [])
      ++ (match r.message with | some m => [("message", Json.str m)] | none => []))

/-- Shape check for a serialized `PossibleItem`: both string fields
present. -/
def possibleShape (j : Json) : Bool :=
  match j.field "message", j.field "date_range" with
  | some (Json.str _), some (Json.str _) => true
  | _, _ => false

/-- Shape check for a serialized `DetailedItem`: the six fields of the
frontend's `DetailedItem` type, with the right primitive kinds. -/
def detailedShape (j : Json) : Bool :=
  match j.field "start_time", j.field "end_time", j.field "duration_hours",
      j.field "snow_inches", j.field "category", j.field "lead_hours" with
  | some (Json.str _), some (Json.str _), some (Json.num _),
      some (Json.num _), some (Json.str _), some (Json.num _) => true
  | _, _, _, _, _, _ => false

/-- Shape check for a serialized `FinalCallItem`. -/
def finalCallShape (j : Json) : Bool :=
  match j.field "message", j.field "start_time", j.field "end_time",
      j.field "duration_hours", j.field "snow_inches", j.field "category" with
  | some (Json.str _), some (Json.str _), some (Json.str _),
      some (Json.num _), some (Json.num _), some (Json.str _) => true
  | _, _, _, _, _, _ => false

/-- Shape check for the whole Forecast Response JSON, exactly the shape of
the frontend's `ForecastResponse` type: `possible` null or an object,
`detailed` an array of detailed items, `finalCall` null or an object,
`last_updated` null or a string, `runs_used` a number, and the optional
`lat`/`lon` (numbers) and `message` (string) fields absent or of the
right kind. -/
def wellFormedForecast (j : Json) : Bool :=
  (match j.field "possible" with
   | some Json.null => true
   | some p => possibleShape p
   | none => false) &&
  (match j.field "detailed" with
   | some (Json.arr xs) => xs.all detailedShape
   | _ => false) &&
  (match j.field "finalCall" with
   | some Json.null => true
   | some fc => finalCallShape fc
   | none => false) &&
  (match j.field "last_updated" with
   | some Json.null => true
   | some (Json.str _) => true
   | _ => false) &&
  (match j.field "runs_used" with
   | some (Json.num _) => true
   | _ => false) &&
  (match j.field "lat" with
   | some (Json.num _) => true
   | none => true
   | _ => false) &&
  (match j.field "lon" with
   | some (Json.num _) => true
   | none => true
   | _ => false) &&
  (match j.field "message" with
   | some (Json.str _) => true
   | none => true
   | _ => false)

/-- A JavaScript string modelled as its list of Unicode code points. -/
abbrev JsString : Type := List Nat

/-- Code points of a Lean string literal, for embedding the TypeScript
string constants. -/
def jsStr (s : String) : JsString :=
  s.data.map Char.toNat

/-- The whitespace code points recognized by `String.prototype.trim`
(ASCII whitespace plus NBSP and BOM; the fragment relevant to this
code base). -/
def jsWhitespaceCode (n : Nat) : Bool :=
  decide (n = 9 ∨ n = 10 ∨ n = 11 ∨ n = 12 ∨ n = 13 ∨ n = 32 ∨ n = 160 ∨ n = 65279)

/-- `String.prototype.toUpperCase` on one code point (the ASCII fragment,
which covers every ICAO code in the station table). -/
def jsToUpperCode (n : Nat) : Nat :=
  if 97 ≤ n ∧ n ≤ 122 then n - 32 else n

/-- Leading-whitespace removal of `String.prototype.trim`. -/
def trimStart (l : JsString) : JsString :=
  l.dropWhile jsWhitespaceCode

/-- Trailing-whitespace removal of `String.prototype.trim`. -/
def trimEnd (l : JsString) : JsString :=
  (List.reverse l |>.dropWhile jsWhitespaceCode).reverse

/-- `String.prototype.trim`: strip whitespace from both ends. -/
def jsTrim (l : JsString) : JsString :=
  trimEnd (trimStart l)

/-- `s.trim().toUpperCase()` as computed in `getStationByIcao`. -/
def normIcao (l : JsString) : JsString :=
  (jsTrim l).map jsToUpperCode

/-- Embedded from `src/frontend/src/metarStations.ts` (`MetarStation`);
coordinates are degrees scaled by 10^4. -/
structure MetarStation where
  icao : JsString
  name : JsString
  lat : Int
  lon : Int
deriving DecidableEq, Repr

/-- Embedded from `src/frontend/src/metarStations.ts`
(`METAR_STATIONS`). -/
def METAR_STATIONS : List MetarStation :=
  [{ icao := jsStr "KDOV", name := jsStr "Dover AFB, DE", lat := 391295, lon := -754660 },
   { icao := jsStr "KPHL", name := jsStr "Philadelphia, PA", lat := 398729, lon := -752437 },
   { icao := jsStr "KBWI", name := jsStr "Baltimore (BWI), MD", lat := 391754, lon := -766683 },
   { icao := jsStr "KDCA", name := jsStr "Washington Reagan, DC", lat := 388521, lon := -770377 },
   { icao := jsStr "KIAD", name := jsStr "Washington Dulles, VA", lat := 389445, lon := -774558 },
   { icao := jsStr "KNYC", name := jsStr "New York (Central Park)", lat := 407790, lon := -739692 },
   { icao := jsStr "KJFK", name := jsStr "New York JFK", lat := 406398, lon := -737789 },
   { icao := jsStr "KBOS", name := jsStr "Boston, MA", lat := 423656, lon := -710096 },
   { icao := jsStr "KORD", name := jsStr "Chicago O\x27Hare, IL", lat := 419742, lon := -879073 },
   { icao := jsStr "KDEN", name := jsStr "Denver, CO", lat := 398617, lon := -1046731 }]

/-- Embedded from `src/frontend/src/metarStations.ts`
(`DEFAULT_STATION = METAR_STATIONS[0]`). -/
def DEFAULT_STATION : Option MetarStation :=
  METAR_STATIONS.head?

/-- Embedded from `src/frontend/src/metarStations.ts`
(`getStationByIcao`): uppercase the trimmed argument, then `find` the
first station whose `icao` equals it. -/
def getStationByIcao (icao : JsString) : Option MetarStation :=
  METAR_STATIONS.find? (fun s => decide (s.icao = normIcao icao))

/-- Embedded from `src/frontend/src/useForecast.ts` (`fetchForecast`): the
three ways one call can complete: `r.ok` with a parsed body; `!r.ok` with
the HTTP status and the body text read for the error; or a thrown
exception (`some m` an `Error` with message `m`, `none` a non-`Error`
value). A rejected `r.json()` is a thrown `Error`. -/
inductive FetchOutcome where
  | success (json : ForecastResponse)
  | httpError (status : Nat) (bodyText : String)
  | thrown (message : Option String)
deriving DecidableEq, Repr

/-- Embedded from `src/frontend/src/useForecast.ts`: the hook state held
in `useState`: `data`, `error`, `loading`. -/
structure HookState where
  data : Option ForecastResponse
  error : Option String
  loading : Bool
deriving DecidableEq, Repr

/-- Embedded from `src/frontend/src/useForecast.ts` (line 55): the thrown
message for a non-ok response: the body text, or `HTTP <status>` when the
body is empty (`t || ...`). -/
def httpErrorMessage (status : Nat) (bodyText : String) : String :=
  if bodyText = "" then "HTTP " ++ toString status else bodyText

/-- Embedded from `src/frontend/src/useForecast.ts` (`fetchForecast`,
lines 42-65): the state after one call completes. The call begins with
`setLoading(true); setError(null)`; on success it runs `setData(json)`,
on a caught exception `setError(...)` then `setData(null)`, and the
`finally` block runs `setLoading(false)`. -/
def fetchForecastStep (o : FetchOutcome) : HookState :=
  match o with
  | FetchOutcome.success j => { data := some j, error := none, loading := false }
  | FetchOutcome.httpError s t =>
      { data := none, error := some (httpErrorMessage s t), loading := false }
  | FetchOutcome.thrown (some m) => { data := none, error := some m, loading := false }
  | FetchOutcome.thrown none => { data := none, error := some "Request failed", loading := false }

/-- Embedded from `src/unnamed/part_000` lines 13-17, character for
character: the `fetch` event listener of the service worker (braces
written with escapes). None of its string literals contains a
parenthesis. -/
def fetchListenerSource : String :=
  "self.addEventListener(\"fetch\", (e) => \x7b\n" ++
  "  e.respondWith(\n" ++
  "    fetch(e.request).catch(() => caches.match(e.request).then((r) => r || caches.match(\"/\").then((r2) => r2 || new Response(\"Offline. Try again when connected.\", \x7b status: 503, statusText: \"Service Unavailable\" \x7d)))\n" ++
  "  );\n" ++
  "\x7d);\n"

/-- Net parenthesis balance of a character sequence: opening minus closing
round brackets. Balanced JavaScript source has balance 0 (and never dips
negative); the listener's strings contain no parentheses, so counting raw
characters is exact here. -/
def parenBalance (l : List Char) : Int :=
  l.foldl (fun acc c => if c = '(' then acc + 1 else if c = ')' then acc - 1 else acc) 0

/-- A concrete Detector configuration for the concrete evaluations below:
freezing threshold 0, precipitation threshold 10, conversion factor 100,
lead hours 0, 6, ..., 84. -/
def demoCfg : DetectorConfig :=
  { freezingThreshold := 0, precipThreshold := 10, snowFactor := 100, nLead := 14 }

/-- A concrete Fetcher: every run indicates snow at lead hour 78 (below
freezing, precipitation 25) and nothing anywhere else; every file is
fetchable. -/
def demoFetcher : GridKey → Option LeadSample :=
  fun k =>
    if k.leadHour = 78 then some { temp := -20, precip := 25 }
    else some { temp := 50, precip := 0 }

/-- A concrete Fetcher on which only run 12 indicates snow at lead hour
78, so two consecutive runs disagree there. -/
def disagreeFetcher : GridKey → Option LeadSample :=
  fun k =>
    if k.runId = 12 ∧ k.leadHour = 78 then some { temp := -20, precip := 25 }
    else some { temp := 50, precip := 0 }

/-- The grids of runs 12 (newest) and 6 as seen through
`disagreeFetcher` for bounding box 0. -/
def disagreeGrids : List RunGrid :=
  [12, 6].map (fun r => fun h => disagreeFetcher ⟨r, h, 0⟩)

/-- A one-entry cache holding exactly the value `demoFetcher` decodes for
(run 12, lead hour 78, box 0), recorded at minute 0. -/
def demoCache : Cache :=
  [(⟨12, 78, 0⟩, ⟨{ temp := -20, precip := 25 }, 0⟩)]

end GfsWinter

namespace GfsWinter

/-- Every lead hour inside a group produced by `groupContig` came from the
input list. -/
theorem mem_of_mem_groupContig (l : List Nat) (g : List Nat) (a : Nat)
    (hg : g ∈ groupContig l) (ha : a ∈ g) : a ∈ l := by
  induction l generalizing g with
  | nil => simp [groupContig] at hg
  | cons h t ih =>
    simp only [groupContig] at hg
    rcases hgc : groupContig t with _ | ⟨g₀, gs⟩
    · rw [hgc] at hg
      simp at hg
      subst hg
      simp at ha
      simp [ha]
    · rw [hgc] at hg
      cases g₀ with
      | nil =>
        simp at hg
        rcases hg with hg | hg | hg
        · subst hg; simp at ha; simp [ha]
        · subst hg; simp at ha
        · exact List.mem_cons_of_mem _ (ih g (by rw [hgc]; exact List.mem_cons_of_mem _ hg) ha)
      | cons x g₁ =>
        by_cases hx : x = h + 6
        · simp [hx] at hg
          rcases hg with hg | hg
          · subst hg
            rcases List.mem_cons.mp ha with ha | ha
            · simp [ha]
            · exact List.mem_cons_of_mem _
                (ih (x :: g₁) (by rw [hgc]; exact List.mem_cons_self _ _) (by simpa [hx] using ha))
          · exact List.mem_cons_of_mem _ (ih g (by rw [hgc]; exact List.mem_cons_of_mem _ hg) ha)
        · simp [hx] at hg
          rcases hg with hg | hg | hg
          · subst hg; simp at ha; simp [ha]
          · subst hg
            exact List.mem_cons_of_mem _ (ih (x :: g₁) (by rw [hgc]; exact List.mem_cons_self _ _) ha)
          · exact List.mem_cons_of_mem _ (ih g (by rw [hgc]; exact List.mem_cons_of_mem _ hg) ha)

set_option maxRecDepth 4000

/-- C1: the Tier Classifier places every Forecast Window in exactly one
tier, chosen solely by its lead time (window start minus now) at
classification time, with boundaries exactly at 24h and 72h: lead = 24
and lead = 72 both yield the detailed tier, lead > 72 yields possible,
and lead < 24 yields final call. -/
theorem classify_tier_by_lead (w : ForecastWindow) (now : Int) :
    (windowLead w now = 24 → classifyWindow w now = Tier.detailed) ∧
    (windowLead w now = 72 → classifyWindow w now = Tier.detailed) ∧
    (72 < windowLead w now → classifyWindow w now = Tier.possible) ∧
    (24 ≤ windowLead w now → windowLead w now ≤ 72 → classifyWindow w now = Tier.detailed) ∧
    (windowLead w now < 24 → classifyWindow w now = Tier.finalCall) ∧
    (∀ w' now', windowLead w' now' = windowLead w now →
      classifyWindow w' now' = classifyWindow w now) := by
  refine ⟨?_, ?_, ?_, ?_, ?_, ?_⟩
  · intro h
    simp only [classifyWindow, classifyLead, h]
    norm_num
  · intro h
    simp only [classifyWindow, classifyLead, h]
    norm_num
  · intro h
    simp only [classifyWindow, classifyLead, if_pos h]
  · intro h₁ h₂
    simp only [classifyWindow, classifyLead]
    rw [if_neg (by omega), if_pos h₁]
  · intro h
    simp only [classifyWindow, classifyLead]
    rw [if_neg (by omega), if_neg (by omega)]
  · intro w' now' h
    simp only [classifyWindow, h]

/-- Witness for C1 at the boundary leads 24, 72, a far lead 78 and a near
lead 12, all evaluated at now = 0. -/
theorem classify_tier_by_lead_witness :
    classifyWindow { startTime := 24, endTime := 30, startLead := 24, hours := [24], snowAmount := 0 } 0 = Tier.detailed ∧
    classifyWindow { startTime := 72, endTime := 78, startLead := 72, hours := [72], snowAmount := 0 } 0 = Tier.detailed ∧
    classifyWindow { startTime := 78, endTime := 84, startLead := 78, hours := [78], snowAmount := 0 } 0 = Tier.possible ∧
    classifyWindow { startTime := 12, endTime := 18, startLead := 12, hours := [12], snowAmount := 0 } 0 = Tier.finalCall :=
  ⟨(classify_tier_by_lead _ 0).1 (by decide),
   (classify_tier_by_lead _ 0).2.1 (by decide),
   (classify_tier_by_lead _ 0).2.2.1 (by decide),
   (classify_tier_by_lead _ 0).2.2.2.2.1 (by decide)⟩

/-- C5: with TTL = 60 minutes, `get_or_fetch` at t = 0 populates the cache
through the Fetcher; the identical call at t = 59 returns the cached
entry without invoking the Fetcher; at t = 61 the entry counts as expired
and the Fetcher runs again, lazily replacing only that key's entry. -/
theorem cache_ttl_expiry (f : GridKey → Option LeadSample) (k : GridKey)
    (v : LeadSample) (hf : f k = some v) :
    let r0 := getOrFetch 60 f [] k 0
    let r59 := getOrFetch 60 f r0.cache k 59
    let r61 := getOrFetch 60 f r59.cache k 61
    r0.fetched = true ∧ r0.value = some v ∧
    r59.fetched = false ∧ r59.value = some v ∧
    r61.fetched = true ∧ r61.value = some v ∧
    (∀ k', k' ≠ k → lookupEntry r61.cache k' = lookupEntry r59.cache k') := by
  intro r0 r59 r61
  have h0 : r0 = ⟨some v, [(k, ⟨v, 0⟩)], true⟩ := by
    simp [r0, getOrFetch, lookupEntry, hf, insertEntry, eraseKey]
  have h59 : r59 = ⟨some v, [(k, ⟨v, 0⟩)], false⟩ := by
    simp [r59, h0, getOrFetch, lookupEntry]
  have h61 : r61 = ⟨some v, [(k, ⟨v, 61⟩)], true⟩ := by
    simp [r61, h59, getOrFetch, lookupEntry, hf, insertEntry, eraseKey]
  refine ⟨by simp [h0], by simp [h0], by simp [h59], by simp [h59],
    by simp [h61], by simp [h61], ?_⟩
  intro k' hne
  have hkk : ¬ (k = k') := fun h => hne h.symm
  simp [h61, h59, lookupEntry, hkk]

/-- Witness for C5 at the key (run 12, lead 78, box 0) against
`demoFetcher`. -/
theorem cache_ttl_expiry_witness :
    let r0 := getOrFetch 60 demoFetcher [] ⟨12, 78, 0⟩ 0
    let r59 := getOrFetch 60 demoFetcher r0.cache ⟨12, 78, 0⟩ 59
    let r61 := getOrFetch 60 demoFetcher r59.cache ⟨12, 78, 0⟩ 61
    r0.fetched = true ∧ r0.value = some { temp := -20, precip := 25 } ∧
    r59.fetched = false ∧ r59.value = some { temp := -20, precip := 25 } ∧
    r61.fetched = true ∧ r61.value = some { temp := -20, precip := 25 } ∧
    (∀ k', k' ≠ (⟨12, 78, 0⟩ : GridKey) → lookupEntry r61.cache k' = lookupEntry r59.cache k') :=
  cache_ttl_expiry demoFetcher ⟨12, 78, 0⟩ { temp := -20, precip := 25 } rfl

/-- C9: after every completed `fetchForecast` call, `loading` is false,
and `data` and `error` are mutually exclusive: success stores the parsed
response with a null error, while a non-ok HTTP status or a thrown
exception stores a null `data` and a non-null `error` string. -/
theorem hook_state_exclusive (o : FetchOutcome) :
    (fetchForecastStep o).loading = false ∧
    (∀ j, o = FetchOutcome.success j →
      fetchForecastStep o = { data := some j, error := none, loading := false }) ∧
    ((∀ j, o ≠ FetchOutcome.success j) →
      (fetchForecastStep o).data = none ∧ ∃ m, (fetchForecastStep o).error = some m) := by
  refine ⟨?_, ?_, ?_⟩
  · cases o with
    | success j => rfl
    | httpError s t => rfl
    | thrown m => cases m <;> rfl
  · intro j h
    subst h
    rfl
  · intro h
    cases o with
    | success j => exact absurd rfl (h j)
    | httpError s t => exact ⟨rfl, _, rfl⟩
    | thrown m =>
      cases m with
      | some msg => exact ⟨rfl, _, rfl⟩
      | none => exact ⟨rfl, _, rfl⟩

/-- Witness for C9 on a non-ok response with an empty body (HTTP 404). -/
theorem hook_state_exclusive_witness :
    (fetchForecastStep (FetchOutcome.httpError 404 "")).data = none ∧
    ∃ m, (fetchForecastStep (FetchOutcome.httpError 404 "")).error = some m :=
  (hook_state_exclusive (FetchOutcome.httpError 404 "")).2.2
    (fun _ h => FetchOutcome.noConfusion h)

/-- On a cache consistent with the Fetcher, `get_or_fetch` always returns
exactly what the Fetcher decodes for the key: refetches reproduce the
same decoded values. -/
theorem getOrFetch_value_of_consistent (ttl : Nat) (f : GridKey → Option LeadSample)
    (c : Cache) (k : GridKey) (now : Nat) (hc : Consistent f c) :
    (getOrFetch ttl f c k now).value = f k := by
  unfold getOrFetch
  cases hl : lookupEntry c k with
  | none => cases hfk : f k <;> simp [hfk]
  | some e =>
    by_cases hexp : ttl < now - e.fetchedAt
    · cases hfk : f k <;> simp [hexp, hfk]
    · simp [hexp, hc k e hl]

/-- The empty cache is consistent with every Fetcher. -/
theorem consistent_nil (f : GridKey → Option LeadSample) : Consistent f [] :=
  fun _ _ h => Option.noConfusion h

/-- Against a consistent cache snapshot, the Assembler's effective grid
source is the Fetcher itself. -/
theorem cachedFetcher_eq_of_consistent (ttl : Nat) (f : GridKey → Option LeadSample)
    (c : Cache) (tF : Nat) (hc : Consistent f c) :
    cachedFetcher ttl f c tF = f :=
  funext fun k => getOrFetch_value_of_consistent ttl f c k tF hc

/-- C2: a lead hour on which fewer than 2 of the most recent runs agree
that snow is indicated never belongs to any detected Forecast Window, so
the pipeline emits no tier at all for it — in particular not the
possible tier. -/
theorem no_emission_without_agreement (cfg : DetectorConfig) (grids : List RunGrid)
    (init now : Int) (h : Nat) (hlt : agreementCount cfg grids h < minAgreement) :
    (∀ w ∈ detectWindows cfg grids init, h ∉ w.hours) ∧
    ¬ ∃ w ∈ detectWindows cfg grids init, h ∈ w.hours ∧ classifyWindow w now = Tier.possible := by
  have main : ∀ w ∈ detectWindows cfg grids init, h ∉ w.hours := by
    intro w hw hmem
    rcases List.mem_filterMap.mp hw with ⟨g, hg, hfg⟩
    cases g with
    | nil => exact Option.noConfusion hfg
    | cons x t =>
      cases hgl : (x :: t).getLast? with
      | none => exact absurd (List.getLast?_eq_none_iff.mp hgl) (List.cons_ne_nil x t)
      | some y =>
        rw [hgl] at hfg
        have hhours : w.hours = x :: t := by
          cases hfg
          rfl
        rw [hhours] at hmem
        have hsurf : h ∈ surfacedHours cfg grids :=
          mem_of_mem_groupContig _ _ _ hg hmem
        have hagree : surfaced cfg grids h = true :=
          (List.mem_filter.mp hsurf).2
        have : minAgreement ≤ agreementCount cfg grids h := of_decide_eq_true hagree
        omega
  refine ⟨main, ?_⟩
  rintro ⟨w, hw, hmem, _⟩
  exact main w hw hmem

/-- Witness for C2: runs 12 and 6 disagree at lead hour 78 (agreement 1
of 2), so no window contains lead hour 78 and nothing is emitted for
it. -/
theorem no_emission_without_agreement_witness :
    agreementCount demoCfg disagreeGrids 78 < minAgreement ∧
    (∀ w ∈ detectWindows demoCfg disagreeGrids 12, 78 ∉ w.hours) ∧
    ¬ ∃ w ∈ detectWindows demoCfg disagreeGrids 12, 78 ∈ w.hours ∧ classifyWindow w 0 = Tier.possible :=
  ⟨by decide, no_emission_without_agreement demoCfg disagreeGrids 12 0 78 (by decide)⟩

/-- C3: when zero runs are fetchable (every remote fetch fails), the
Assembler still returns a successful message-only Forecast Response with
runs_used = 0, an empty detailed array, null possible and finalCall, and
a non-empty message, rather than failing the request. -/
theorem assembler_zero_runs (cfg : DetectorConfig) (ttl tF : Nat)
    (f : GridKey → Option LeadSample) (cands : List Nat) (bbox : Nat)
    (lat lon : Int) (now : Int) (hf : ∀ k, f k = none) :
    assembleWithCache cfg ttl f [] tF cands bbox lat lon now = emptyResponse lat lon ∧
    (emptyResponse lat lon).runs_used = 0 ∧
    (emptyResponse lat lon).detailed = [] ∧
    (emptyResponse lat lon).possible = none ∧
    (emptyResponse lat lon).finalCall = none ∧
    ∃ m, (emptyResponse lat lon).message = some m ∧ m ≠ "" := by
  have hcf : cachedFetcher ttl f [] tF = f :=
    cachedFetcher_eq_of_consistent ttl f [] tF (consistent_nil f)
  have hzero : (0 : Nat) ∈ leadHoursList cfg.nLead := by
    simp only [leadHoursList, List.mem_map, List.mem_range]
    exact ⟨0, by omega, rfl⟩
  have hrc : ∀ r, runComplete f r bbox cfg.nLead = false := by
    intro r
    simp only [runComplete]
    rw [List.all_eq_false]
    exact ⟨0, hzero, by simp [hf]⟩
  have hfilter : cands.filter (fun r => runComplete f r bbox cfg.nLead) = [] :=
    List.filter_eq_nil_iff.mpr (fun a _ => by simp [hrc a])
  refine ⟨?_, rfl, rfl, rfl, rfl, "No GFS runs available yet. Try again later.", rfl, by decide⟩
  rw [assembleWithCache, hcf]
  simp [assembleFrom, hfilter]

/-- Witness for C3: the Fetcher that fails on every key yields the
message-only response for the KDOV request against three candidate
runs. -/
theorem assembler_zero_runs_witness :
    assembleWithCache demoCfg 60 (fun _ => none) [] 0 [12, 6, 0] 0 391295 (-754660) 0 =
      emptyResponse 391295 (-754660) ∧
    (emptyResponse 391295 (-754660)).runs_used = 0 ∧
    (emptyResponse 391295 (-754660)).detailed = [] ∧
    (emptyResponse 391295 (-754660)).possible = none ∧
    (emptyResponse 391295 (-754660)).finalCall = none ∧
    ∃ m, (emptyResponse 391295 (-754660)).message = some m ∧ m ≠ "" :=
  assembler_zero_runs demoCfg 60 0 (fun _ => none) [12, 6, 0] 0 391295 (-754660) 0 (fun _ => rfl)

/-- `demoCache` stores exactly what `demoFetcher` decodes for its key. -/
theorem demoCache_consistent : Consistent demoFetcher demoCache := by
  intro k e h
  simp only [demoCache, lookupEntry] at h
  split at h
  · rename_i heq
    cases h
    rw [← heq]
    rfl
  · exact Option.noConfusion h

/-- C4 counterexample: with the same location, the same Fetcher, the same
candidate runs (no new run publishes in between) and the same empty
cache, a request classified at hour 0 and one classified at hour 30
produce different Forecast Responses: the detected window at absolute
hour 90 surfaces as "possible" at lead 90 but as "detailed" at lead
60. -/
theorem forecast_depends_on_request_time :
    assembleWithCache demoCfg 60 demoFetcher [] 0 [12, 6, 0] 0 391295 (-754660) 0 ≠
    assembleWithCache demoCfg 60 demoFetcher [] 0 [12, 6, 0] 0 391295 (-754660) 30 := by
  decide

/-- C4 amended: at a fixed evaluation time, the Forecast Response is a
deterministic function of (location, available run data, candidate
runs): two requests served against any two cache snapshots consistent
with the Fetcher — e.g. a fresh cache and one whose TTL expiry forces a
refetch — return identical responses. -/
theorem forecast_deterministic_at_fixed_now (cfg : DetectorConfig) (ttl : Nat)
    (f : GridKey → Option LeadSample) (c₁ c₂ : Cache) (t₁ t₂ : Nat)
    (cands : List Nat) (bbox : Nat) (lat lon : Int) (now : Int)
    (h₁ : Consistent f c₁) (h₂ : Consistent f c₂) :
    assembleWithCache cfg ttl f c₁ t₁ cands bbox lat lon now =
    assembleWithCache cfg ttl f c₂ t₂ cands bbox lat lon now := by
  rw [assembleWithCache, assembleWithCache,
    cachedFetcher_eq_of_consistent ttl f c₁ t₁ h₁,
    cachedFetcher_eq_of_consistent ttl f c₂ t₂ h₂]

/-- Witness for C4's amended claim: a fresh empty cache at minute 0 and a
pre-populated cache queried at minute 61 (its 60-minute TTL expired,
forcing a refetch) return the identical response at the same evaluation
hour. -/
theorem forecast_deterministic_at_fixed_now_witness :
    assembleWithCache demoCfg 60 demoFetcher [] 0 [12, 6, 0] 0 391295 (-754660) 30 =
    assembleWithCache demoCfg 60 demoFetcher demoCache 61 [12, 6, 0] 0 391295 (-754660) 30 :=
  forecast_deterministic_at_fixed_now demoCfg 60 demoFetcher [] demoCache 0 61
    [12, 6, 0] 0 391295 (-754660) 30 (consistent_nil demoFetcher) demoCache_consistent

/-- A serialized `PossibleItem` has the possible-tier shape. -/
theorem possibleShape_toJson (p : PossibleItem) :
    possibleShape (PossibleItem.toJson p) = true := rfl

/-- A serialized `DetailedItem` has the detailed-tier shape. -/
theorem detailedShape_toJson (d : DetailedItem) :
    detailedShape (DetailedItem.toJson d) = true := rfl

/-- A serialized `FinalCallItem` has the final-call shape. -/
theorem finalCallShape_toJson (fc : FinalCallItem) :
    finalCallShape (FinalCallItem.toJson fc) = true := rfl

/-- Every serialized detailed array consists of detailed-shaped items. -/
theorem all_detailedShape (det : List DetailedItem) :
    (det.map DetailedItem.toJson).all detailedShape = true := by
  rw [List.all_eq_true]
  intro x hx
  rcases List.mem_map.mp hx with ⟨d, _, rfl⟩
  exact detailedShape_toJson d

/-- Every Forecast Response serializes to well-formed JSON of exactly the
shape the frontend's `ForecastResponse` type expects. -/
theorem wellFormed_toJson (r : ForecastResponse) :
    wellFormedForecast (ForecastResponse.toJson r) = true := by
  rcases r with ⟨pos, det, fc, lu, ru, la, lo, msg⟩
  cases pos <;> cases fc <;> cases lu <;> cases la <;> cases lo <;> cases msg <;>
    simp [wellFormedForecast, ForecastResponse.toJson, Json.field, optJson, List.find?,
      PossibleItem.toJson, FinalCallItem.toJson, possibleShape, finalCallShape,
      all_detailedShape]

/-- C7: for every valid (lat, lon), GET /forecast answers with a
successful Forecast Response whose JSON carries the fields possible,
detailed (an array), finalCall, last_updated, runs_used, the lat/lon
echo and an optional message — exactly the shape the frontend's
`ForecastResponse` type expects — even when no winter weather is
indicated. -/
theorem forecast_route_well_formed (cfg : DetectorConfig) (ttl : Nat)
    (f : GridKey → Option LeadSample) (c : Cache) (tF : Nat) (cands : List Nat)
    (bbox : Nat) (lat lon : Int) (now : Int) (hv : validCoord lat lon = true) :
    ∃ r, handleForecast cfg ttl f c tF cands bbox lat lon now = Except.ok r ∧
      wellFormedForecast (ForecastResponse.toJson r) = true := by
  refine ⟨assembleWithCache cfg ttl f c tF cands bbox lat lon now, ?_, wellFormed_toJson _⟩
  simp [handleForecast, hv]

/-- Witness for C7 at the KDOV coordinates with the demo Fetcher. -/
theorem forecast_route_well_formed_witness :
    ∃ r, handleForecast demoCfg 60 demoFetcher [] 0 [12, 6, 0] 0 391295 (-754660) 0 = Except.ok r ∧
      wellFormedForecast (ForecastResponse.toJson r) = true :=
  forecast_route_well_formed demoCfg 60 demoFetcher [] 0 [12, 6, 0] 0 391295 (-754660) 0 (by decide)

/-- Uppercasing a code point neither creates nor destroys whitespace. -/
theorem jsWhitespaceCode_upper (n : Nat) :
    jsWhitespaceCode (jsToUpperCode n) = jsWhitespaceCode n := by
  simp only [jsWhitespaceCode, jsToUpperCode]
  split
  · rename_i h
    rw [decide_eq_decide]
    omega
  · rfl

/-- `toUpperCase` is idempotent on code points. -/
theorem jsToUpperCode_idem (n : Nat) :
    jsToUpperCode (jsToUpperCode n) = jsToUpperCode n := by
  simp only [jsToUpperCode]
  split
  · rename_i h
    rw [if_neg (by omega)]
  · rfl

/-- Whitespace-dropping commutes with uppercasing. -/
theorem dropWhile_ws_map_upper (l : List Nat) :
    (l.map jsToUpperCode).dropWhile jsWhitespaceCode =
    (l.dropWhile jsWhitespaceCode).map jsToUpperCode := by
  have hcomp : jsWhitespaceCode ∘ jsToUpperCode = jsWhitespaceCode :=
    funext jsWhitespaceCode_upper
  rw [List.dropWhile_map, hcomp]

/-- `trimStart` commutes with uppercasing. -/
theorem trimStart_map (l : List Nat) :
    trimStart (l.map jsToUpperCode) = (trimStart l).map jsToUpperCode :=
  dropWhile_ws_map_upper l

/-- `trimEnd` commutes with uppercasing. -/
theorem trimEnd_map (l : List Nat) :
    trimEnd (l.map jsToUpperCode) = (trimEnd l).map jsToUpperCode := by
  simp only [trimEnd]
  rw [← List.map_reverse, dropWhile_ws_map_upper, ← List.map_reverse]

/-- `trim` commutes with uppercasing. -/
theorem jsTrim_map (l : List Nat) :
    jsTrim (l.map jsToUpperCode) = (jsTrim l).map jsToUpperCode := by
  simp only [jsTrim]
  rw [trimStart_map, trimEnd_map]

/-- `trimEnd` is idempotent. -/
theorem trimEnd_idem (l : List Nat) : trimEnd (trimEnd l) = trimEnd l := by
  simp only [trimEnd, List.reverse_reverse, List.dropWhile_idempotent]

/-- A list unchanged by `dropWhile` has a head the predicate rejects. -/
theorem head_false_of_dropWhile_eq_self (p : Nat → Bool) (b : Nat) (t : List Nat)
    (h : (b :: t).dropWhile p = b :: t) : p b = false := by
  by_cases hp : p b
  · rw [List.dropWhile_cons_of_pos hp] at h
    rcases List.dropWhile_suffix (l := t) p with ⟨s, hs⟩
    rw [h] at hs
    have := congrArg List.length hs
    simp [List.length_append] at this
    omega
  · exact Bool.eq_false_iff.mpr hp

/-- If a list is already left-trimmed, trimming its right end keeps it
left-trimmed. -/
theorem trimStart_trimEnd (l : List Nat) (h : trimStart l = l) :
    trimStart (trimEnd l) = trimEnd l := by
  rcases List.dropWhile_suffix (l := l.reverse) jsWhitespaceCode with ⟨s, hs⟩
  have hl : l = trimEnd l ++ s.reverse := by
    calc l = l.reverse.reverse := (List.reverse_reverse l).symm
    _ = (s ++ l.reverse.dropWhile jsWhitespaceCode).reverse := by rw [hs]
    _ = trimEnd l ++ s.reverse := by
        rw [List.reverse_append]
        rfl
  cases htl : trimEnd l with
  | nil => rfl
  | cons b u =>
    rw [htl] at hl
    have hb : jsWhitespaceCode b = false := by
      have hh : trimStart l = l := h
      rw [hl] at hh
      exact head_false_of_dropWhile_eq_self _ _ _ hh
    exact List.dropWhile_cons_of_neg (by simp [hb])

/-- `trim` is idempotent. -/
theorem jsTrim_idem (l : List Nat) : jsTrim (jsTrim l) = jsTrim l := by
  simp only [jsTrim]
  have h1 : trimStart (trimStart l) = trimStart l := List.dropWhile_idempotent _ _
  rw [trimStart_trimEnd (trimStart l) h1, trimEnd_idem]

/-- `s.trim().toUpperCase()` is a normal form: normalizing twice equals
normalizing once. -/
theorem normIcao_idem (l : JsString) : normIcao (normIcao l) = normIcao l := by
  simp only [normIcao]
  rw [jsTrim_map, List.map_map, jsTrim_idem]
  congr 1
  funext n
  exact jsToUpperCode_idem n

/-- C8: `getStationByIcao` is whitespace- and case-insensitive:
`getStationByIcao s` equals `getStationByIcao` of the normalized
`s.trim().toUpperCase()`; and it returns the first station of
`METAR_STATIONS` whose `icao` equals the normalized string when one
exists, and none (`undefined`) otherwise. -/
theorem getStationByIcao_normalized (s : JsString) :
    getStationByIcao s = getStationByIcao (normIcao s) ∧
    (∀ st, getStationByIcao s = some st →
      st.icao = normIcao s ∧
      ∃ pre post, METAR_STATIONS = pre ++ st :: post ∧
        ∀ st' ∈ pre, st'.icao ≠ normIcao s) ∧
    (getStationByIcao s = none → ∀ st ∈ METAR_STATIONS, st.icao ≠ normIcao s) := by
  refine ⟨?_, ?_, ?_⟩
  · simp only [getStationByIcao, normIcao_idem]
  · intro st hst
    rcases List.find?_eq_some.mp hst with ⟨hp, pre, post, heq, hall⟩
    refine ⟨of_decide_eq_true hp, pre, post, heq, ?_⟩
    intro st' hmem
    have hb := hall st' hmem
    simpa using hb
  · intro hnone st hmem
    have hb := List.find?_eq_none.mp hnone st hmem
    simpa using hb

/-- Witness for C8 on the input "  kdov " (stray whitespace, lower
case). -/
theorem getStationByIcao_normalized_witness :
    getStationByIcao (jsStr "  kdov ") = getStationByIcao (normIcao (jsStr "  kdov ")) :=
  (getStationByIcao_normalized (jsStr "  kdov ")).1

/-- C10 (code bug): the service worker's `fetch` listener, exactly as in
the source, has one more opening than closing parenthesis, so the script
does not parse as JavaScript and no fetch handler is ever installed: the
handler cannot answer any request. -/
theorem fetch_listener_unbalanced : parenBalance fetchListenerSource.data = 1 := by
  decide

end GfsWinter
